import Mathlib

/-!
Verification of the BGE-M3 embedding HTTP service (src/docker/bge-m3/server.py).

The service parses a JSON body, validates one required field by Python
truthiness, calls the external embedding library once with fixed flags, and
reshapes the result into a JSON response.  We shallow-embed the Python values
exchanged by the handlers, the handlers themselves, and the call they issue to
the model.  The model is an oracle parameter; each handler returns both its
HTTP outcome (an unhandled Python error, or a response) and the list of
encode calls it issued, so that claims about when and how the model is
invoked are statable.
-/

namespace BgeM3

/-- A Python/JSON value as handled by the server: the result of
`request.get_json()` and the payloads passed to `jsonify`. -/
inductive PyVal where
  | pynone
  | bool (b : Bool)
  | int (n : Int)
  | float (q : ℚ)
  | str (s : String)
  | list (xs : List PyVal)
  | dict (kvs : List (String × PyVal))
deriving Repr

/-- Python truthiness, as used by the handlers in `if not text:` checks. -/
def truthy : PyVal → Bool
  | .pynone => false
  | .bool b => b
  | .int n => n != 0
  | .float q => q != 0
  | .str s => s != ""
  | .list xs => !xs.isEmpty
  | .dict kvs => !kvs.isEmpty

/-- Errors a handler may fail with: Python exceptions that the handlers never
catch.  `modelError` stands for any exception raised inside the embedding
library. -/
inductive PyErr where
  | attributeError (msg : String)
  | indexError
  | modelError (msg : String)
deriving Repr, DecidableEq

/-- Python `dict.get(key, default)` on an association list in insertion
order. -/
def dictGet (kvs : List (String × PyVal)) (key : String) (deflt : PyVal) : PyVal :=
  match kvs with
  | [] => deflt
  | (k, v) :: rest => if k = key then v else dictGet rest key deflt

/-- `data.get(key, default)` where `data` is whatever `request.get_json()`
produced.  Unless `data` is a dict this raises `AttributeError` (e.g. for a
null body), exactly as Python attribute lookup does. -/
def pyGet (data : PyVal) (key : String) (deflt : PyVal) : Except PyErr PyVal :=
  match data with
  | .dict kvs => .ok (dictGet kvs key deflt)
  | _ => .error (.attributeError "get")

/-- Python `xs[0]`: raises `IndexError` on an empty sequence. -/
def pyIndex0 {α : Type} (xs : List α) : Except PyErr α :=
  match xs with
  | [] => .error .indexError
  | x :: _ => .ok x

/-- One invocation of `model.encode`, with the exact arguments the server
passes: the inputs value, `max_length`, and the three representation flags. -/
structure EncodeCall where
  inputs : PyVal
  max_length : ℕ
  return_dense : Bool
  return_sparse : Bool
  return_colbert_vecs : Bool
deriving Repr

/-- The part of `model.encode`'s result the server reads: the per-input dense
vectors and the per-input lexical-weight mappings.  A lexical-weight mapping
sends non-negative token ids to weights, in the mapping's own iteration
order (spec section 3: token ids are non-negative integers). -/
structure EncodeResult where
  dense_vecs : List (List ℚ)
  lexical_weights : List (List (ℕ × ℚ))
deriving Repr

/-- The embedding capability as seen by the handlers: it may return a result
or raise. -/
def Model : Type := EncodeCall → Except PyErr EncodeResult

/-- An HTTP response: `jsonify(x)` is status 200; `jsonify(x), 400` is
status 400. -/
structure HttpResponse where
  status : ℕ
  body : PyVal
deriving Repr

/-- `jsonify(body)` with the implicit 200 status. -/
def jsonOk (body : PyVal) : HttpResponse :=
  { status := 200, body := body }

/-- `vec.tolist()` serialized into JSON. -/
def pyOfVec (v : List ℚ) : PyVal :=
  .list (v.map PyVal.float)

/-- The parallel-array wire format produced by `sparse_to_dict`. -/
structure SparseDict where
  indices : List Int
  values : List ℚ
deriving Repr, DecidableEq

/-- `sparse_to_dict(lexical_weights)` from server.py: an empty mapping gives
two empty lists; otherwise `indices` is `int(k)` over the keys and `values`
is `float(v)` over the values, both in the mapping's iteration order. -/
def sparse_to_dict (lexical_weights : List (ℕ × ℚ)) : SparseDict :=
  if lexical_weights.isEmpty then
    { indices := [], values := [] }
  else
    { indices := lexical_weights.map (fun p => (p.1 : Int)),
      values := lexical_weights.map (fun p => p.2) }

/-- A `SparseDict` serialized into the JSON body. -/
def pyOfSparse (s : SparseDict) : PyVal :=
  .dict [("indices", .list (s.indices.map PyVal.int)),
         ("values", .list (s.values.map PyVal.float))]

/-- The inference-and-shaping tail of handler `embed`: the encode call, the
`[0]` access and the response body; any raised error propagates uncaught. -/
def embedCompute (call : EncodeCall) (model : Model) : Except PyErr HttpResponse :=
  match model call with
  | .error e => .error e
  | .ok result =>
    match pyIndex0 result.dense_vecs with
    | .error e => .error e
    | .ok v => .ok (jsonOk (.dict [("embedding", pyOfVec v)]))

/-- Handler `embed` (POST /embed): dense embedding for a single text. -/
def embed (data : PyVal) (maxLength : ℕ) (model : Model) :
    Except PyErr HttpResponse × List EncodeCall :=
  match pyGet data "text" (.str "") with
  | .error e => (.error e, [])
  | .ok text =>
    if !truthy text then
      (.ok { status := 400, body := .dict [("error", .str "text is required")] }, [])
    else
      let call : EncodeCall :=
        { inputs := .list [text], max_length := maxLength,
          return_dense := true, return_sparse := false, return_colbert_vecs := false }
      (embedCompute call model, [call])

/-- The inference-and-shaping tail of handler `embed_batch`. -/
def embedBatchCompute (call : EncodeCall) (model : Model) : Except PyErr HttpResponse :=
  match model call with
  | .error e => .error e
  | .ok result =>
    .ok (jsonOk (.dict [("embeddings", .list (result.dense_vecs.map pyOfVec))]))

/-- Handler `embed_batch` (POST /embed/batch): dense embeddings for a batch. -/
def embed_batch (data : PyVal) (maxLength : ℕ) (model : Model) :
    Except PyErr HttpResponse × List EncodeCall :=
  match pyGet data "texts" (.list []) with
  | .error e => (.error e, [])
  | .ok texts =>
    if !truthy texts then
      (.ok { status := 400, body := .dict [("error", .str "texts is required")] }, [])
    else
      let call : EncodeCall :=
        { inputs := texts, max_length := maxLength,
          return_dense := true, return_sparse := false, return_colbert_vecs := false }
      (embedBatchCompute call model, [call])

/-- The inference-and-shaping tail of handler `embed_full`: the encode call,
the two `[0]` accesses, the sparse conversion and the response body. -/
def embedFullCompute (call : EncodeCall) (model : Model) : Except PyErr HttpResponse :=
  match model call with
  | .error e => .error e
  | .ok result =>
    match pyIndex0 result.dense_vecs with
    | .error e => .error e
    | .ok dense =>
      match pyIndex0 result.lexical_weights with
      | .error e => .error e
      | .ok lw =>
        .ok (jsonOk (.dict [("dense", pyOfVec dense),
                            ("sparse", pyOfSparse (sparse_to_dict lw))]))

/-- Handler `embed_full` (POST /embed/full): dense plus sparse embedding for a
single text. -/
def embed_full (data : PyVal) (maxLength : ℕ) (model : Model) :
    Except PyErr HttpResponse × List EncodeCall :=
  match pyGet data "text" (.str "") with
  | .error e => (.error e, [])
  | .ok text =>
    if !truthy text then
      (.ok { status := 400, body := .dict [("error", .str "text is required")] }, [])
    else
      let call : EncodeCall :=
        { inputs := .list [text], max_length := maxLength,
          return_dense := true, return_sparse := true, return_colbert_vecs := false }
      (embedFullCompute call model, [call])

/-- The inference-and-shaping tail of handler `embed_batch_full`. -/
def embedBatchFullCompute (call : EncodeCall) (model : Model) : Except PyErr HttpResponse :=
  match model call with
  | .error e => .error e
  | .ok result =>
    .ok (jsonOk (.dict [("dense", .list (result.dense_vecs.map pyOfVec)),
                        ("sparse", .list (result.lexical_weights.map
                          (fun lw => pyOfSparse (sparse_to_dict lw))))]))

/-- Handler `embed_batch_full` (POST /embed/batch/full): dense plus sparse
embeddings for a batch. -/
def embed_batch_full (data : PyVal) (maxLength : ℕ) (model : Model) :
    Except PyErr HttpResponse × List EncodeCall :=
  match pyGet data "texts" (.list []) with
  | .error e => (.error e, [])
  | .ok texts =>
    if !truthy texts then
      (.ok { status := 400, body := .dict [("error", .str "texts is required")] }, [])
    else
      let call : EncodeCall :=
        { inputs := texts, max_length := maxLength,
          return_dense := true, return_sparse := true, return_colbert_vecs := false }
      (embedBatchFullCompute call model, [call])

/-- A concrete deterministic model used to witness theorems: every input gets
the dense vector `[1]` and the lexical weights `[(3, 1/2)]`. -/
def modelA : Model :=
  fun _ => .ok { dense_vecs := [[1]], lexical_weights := [[(3, 1/2)]] }

/-- A pointwise model: on a list of inputs it returns the dense vector `f x`
and lexical weights `g x` for each input `x`, in input order. -/
def pwModel (f : PyVal → List ℚ) (g : PyVal → List (ℕ × ℚ)) : Model :=
  fun c =>
    match c.inputs with
    | .list xs => .ok { dense_vecs := xs.map f, lexical_weights := xs.map g }
    | x => .ok { dense_vecs := [f x], lexical_weights := [g x] }

/-- C1: the sparse conversion yields parallel `indices` and `values` lists of
equal length, where the i-th index and i-th value come from the same mapping
entry in the mapping's own iteration order (no sorting), and the empty
mapping yields two empty lists. -/
theorem sparse_to_dict_parallel (lw : List (ℕ × ℚ)) :
    (sparse_to_dict lw).indices = lw.map (fun p => ((p.1 : ℕ) : Int)) ∧
    (sparse_to_dict lw).values = lw.map (fun p => p.2) ∧
    (sparse_to_dict lw).indices.length = (sparse_to_dict lw).values.length ∧
    sparse_to_dict [] = { indices := [], values := [] } := by
  unfold sparse_to_dict
  cases lw with
  | nil => simp
  | cons p rest => simp

/-- C2: a missing or empty required field yields HTTP 400 with the exact body
naming the field: `text is required` for the single endpoints and
`texts is required` for the batch endpoints. -/
theorem missing_field_400 (ml : ℕ) (m : Model) :
    (∀ kvs : List (String × PyVal), dictGet kvs "text" (.str "") = .str "" →
      embed (.dict kvs) ml m
        = (.ok { status := 400, body := .dict [("error", .str "text is required")] }, []) ∧
      embed_full (.dict kvs) ml m
        = (.ok { status := 400, body := .dict [("error", .str "text is required")] }, [])) ∧
    (∀ kvs : List (String × PyVal), dictGet kvs "texts" (.list []) = .list [] →
      embed_batch (.dict kvs) ml m
        = (.ok { status := 400, body := .dict [("error", .str "texts is required")] }, []) ∧
      embed_batch_full (.dict kvs) ml m
        = (.ok { status := 400, body := .dict [("error", .str "texts is required")] }, [])) := by
  constructor
  · intro kvs h
    constructor <;> simp [embed, embed_full, pyGet, h, truthy]
  · intro kvs h
    constructor <;> simp [embed_batch, embed_batch_full, pyGet, h, truthy]

/-- Witness for C2: the empty JSON object body is rejected with the exact
400 response on the single dense endpoint. -/
theorem missing_field_400_witness :
    embed (.dict []) 8192 modelA
      = (.ok { status := 400, body := .dict [("error", .str "text is required")] }, []) :=
  ((missing_field_400 8192 modelA).1 [] rfl).1

/-- C3: when validation rejects the request, the 400 response is produced and
the embedding capability is never invoked: the handler's encode-call trace is
empty. -/
theorem rejected_request_no_encode (ml : ℕ) (m : Model) (kvs : List (String × PyVal)) :
    (truthy (dictGet kvs "text" (.str "")) = false →
      (embed (.dict kvs) ml m).2 = [] ∧
      (embed (.dict kvs) ml m).1
        = .ok { status := 400, body := .dict [("error", .str "text is required")] } ∧
      (embed_full (.dict kvs) ml m).2 = [] ∧
      (embed_full (.dict kvs) ml m).1
        = .ok { status := 400, body := .dict [("error", .str "text is required")] }) ∧
    (truthy (dictGet kvs "texts" (.list [])) = false →
      (embed_batch (.dict kvs) ml m).2 = [] ∧
      (embed_batch (.dict kvs) ml m).1
        = .ok { status := 400, body := .dict [("error", .str "texts is required")] } ∧
      (embed_batch_full (.dict kvs) ml m).2 = [] ∧
      (embed_batch_full (.dict kvs) ml m).1
        = .ok { status := 400, body := .dict [("error", .str "texts is required")] }) := by
  constructor
  · intro h
    refine ⟨?_, ?_, ?_, ?_⟩ <;> simp [embed, embed_full, pyGet, h]
  · intro h
    refine ⟨?_, ?_, ?_, ?_⟩ <;> simp [embed_batch, embed_batch_full, pyGet, h]

/-- Witness for C3: with `text` bound to the empty list, no encode call is
issued by the single dense handler. -/
theorem rejected_request_no_encode_witness :
    (embed (.dict [("text", .list [])]) 8192 modelA).2 = [] :=
  ((rejected_request_no_encode 8192 modelA [("text", .list [])]).1 rfl).1

/-- C5: on a validated request each handler issues exactly one encode call:
the single text wrapped in a one-element list (or the batch value unchanged),
the configured maximum length, dense always on, sparse on exactly for the two
full variants, and the multi-vector representation always off. -/
theorem encode_called_exactly_once (ml : ℕ) (m : Model) (kvs : List (String × PyVal)) :
    (truthy (dictGet kvs "text" (.str "")) = true →
      (embed (.dict kvs) ml m).2
        = [{ inputs := .list [dictGet kvs "text" (.str "")], max_length := ml,
             return_dense := true, return_sparse := false, return_colbert_vecs := false }] ∧
      (embed_full (.dict kvs) ml m).2
        = [{ inputs := .list [dictGet kvs "text" (.str "")], max_length := ml,
             return_dense := true, return_sparse := true, return_colbert_vecs := false }]) ∧
    (truthy (dictGet kvs "texts" (.list [])) = true →
      (embed_batch (.dict kvs) ml m).2
        = [{ inputs := dictGet kvs "texts" (.list []), max_length := ml,
             return_dense := true, return_sparse := false, return_colbert_vecs := false }] ∧
      (embed_batch_full (.dict kvs) ml m).2
        = [{ inputs := dictGet kvs "texts" (.list []), max_length := ml,
             return_dense := true, return_sparse := true, return_colbert_vecs := false }]) := by
  constructor
  · intro h
    constructor <;> simp [embed, embed_full, pyGet, h]
  · intro h
    constructor <;> simp [embed_batch, embed_batch_full, pyGet, h]

/-- Witness for C5: a concrete validated single-text request issues exactly
the one expected encode call. -/
theorem encode_called_exactly_once_witness :
    (embed (.dict [("text", .str "hi")]) 8192 modelA).2
      = [{ inputs := .list [.str "hi"], max_length := 8192,
           return_dense := true, return_sparse := false, return_colbert_vecs := false }] :=
  ((encode_called_exactly_once 8192 modelA [("text", .str "hi")]).1 rfl).1

/-- A concrete pointwise model: every input gets the dense vector `[1]` and
an empty lexical-weight mapping. -/
def modelOne : Model :=
  pwModel (fun _ => [1]) (fun _ => [])

/-- The batch-versus-single agreement property claimed for a batch input
`ts`: the batch dense endpoint answers with an `embeddings` list of the same
length as `ts`, and for each position the single dense endpoint on that input
alone answers with exactly the embedding stored at that position. -/
def batchAgreesWithSingle (ts : List PyVal) (ml : ℕ) (m : Model) : Prop :=
  ∃ embs : List PyVal,
    (embed_batch (.dict [("texts", .list ts)]) ml m).1
      = .ok (jsonOk (.dict [("embeddings", .list embs)])) ∧
    embs.length = ts.length ∧
    ∀ i : Fin ts.length, ∃ e : PyVal,
      embs[i.val]? = some e ∧
      (embed (.dict [("text", ts.get i)]) ml m).1
        = .ok (jsonOk (.dict [("embedding", e)]))

/-- C4 counterexample: on the non-empty list of strings `[""]` the batch
endpoint succeeds with one embedding, while the single endpoint on `""`
returns the 400 validation error instead of that embedding, so the claimed
agreement fails even for a pointwise collaborator. -/
theorem batch_single_disagree_on_empty_string :
    ¬ batchAgreesWithSingle [.str ""] 8192 modelOne := by
  rintro ⟨embs, hb, hlen, hi⟩
  obtain ⟨e, he, hs⟩ := hi ⟨0, by decide⟩
  simp [embed, embedCompute, pyGet, dictGet, truthy, jsonOk] at hs

/-- C4 amended: for every non-empty list of non-empty strings and a
collaborator returning per-input results in input order, the batch dense
endpoint returns one embedding per input, in input order, each equal to the
single dense endpoint's answer on that input alone. -/
theorem batch_agrees_with_single (ml : ℕ) (f : PyVal → List ℚ)
    (g : PyVal → List (ℕ × ℚ)) (m : Model)
    (hm : ∀ c : EncodeCall, ∀ xs : List PyVal, c.inputs = .list xs →
      m c = .ok { dense_vecs := xs.map f, lexical_weights := xs.map g })
    (ts : List String) (hne : ts ≠ []) (hstr : ∀ s ∈ ts, s ≠ "") :
    batchAgreesWithSingle (ts.map PyVal.str) ml m := by
  refine ⟨((ts.map PyVal.str).map f).map pyOfVec, ?_, ?_, ?_⟩
  · have ht : truthy (.list (ts.map PyVal.str)) = true := by
      cases ts with
      | nil => exact absurd rfl hne
      | cons a l => simp [truthy]
    have hc := hm
      { inputs := .list (ts.map PyVal.str), max_length := ml,
        return_dense := true, return_sparse := false, return_colbert_vecs := false }
      (ts.map PyVal.str) rfl
    simp [embed_batch, embedBatchCompute, pyGet, dictGet, ht, hc]
  · simp
  · intro i
    have hilt : i.val < ts.length := by simpa using i.isLt
    refine ⟨pyOfVec (f (.str ts[i.val])), ?_, ?_⟩
    · have hi' : i.val < (((ts.map PyVal.str).map f).map pyOfVec).length := by
        simpa using i.isLt
      rw [List.getElem?_eq_getElem hi']
      simp
    · have hsi : ts[i.val] ≠ "" := hstr _ (List.getElem_mem hilt)
      have hg : (ts.map PyVal.str).get i = PyVal.str ts[i.val] := by
        simp
      have ht : truthy (PyVal.str ts[i.val]) = true := by
        simp [truthy, hsi]
      have hc := hm
        { inputs := .list [PyVal.str ts[i.val]], max_length := ml,
          return_dense := true, return_sparse := false, return_colbert_vecs := false }
        [PyVal.str ts[i.val]] rfl
      rw [hg]
      simp [embed, embedCompute, pyGet, dictGet, ht, hc, pyIndex0]

/-- Witness for the amended C4 at the concrete batch `["a", "b"]` and a
concrete pointwise model. -/
theorem batch_agrees_with_single_witness :
    batchAgreesWithSingle [.str "a", .str "b"] 8192 modelOne :=
  batch_agrees_with_single 8192 (fun _ => [1]) (fun _ => []) modelOne
    (fun c xs h => by simp [modelOne, pwModel, h]) ["a", "b"]
    (by decide) (by decide)

/-- C6: a successful full-embed response carries exactly the sparse
conversion of the input's lexical-weight mapping, whose `indices` and
`values` have equal length, whose indices are all non-negative, and which is
a pair of empty arrays when the mapping is empty. -/
theorem full_sparse_wellformed (ml : ℕ) (m : Model) (kvs : List (String × PyVal))
    (htr : truthy (dictGet kvs "text" (.str "")) = true)
    (res : EncodeResult)
    (hm : m { inputs := .list [dictGet kvs "text" (.str "")], max_length := ml,
              return_dense := true, return_sparse := true,
              return_colbert_vecs := false } = .ok res)
    (d : List ℚ) (ds : List (List ℚ)) (hd : res.dense_vecs = d :: ds)
    (lw : List (ℕ × ℚ)) (lws : List (List (ℕ × ℚ)))
    (hl : res.lexical_weights = lw :: lws) :
    (embed_full (.dict kvs) ml m).1
      = .ok (jsonOk (.dict [("dense", pyOfVec d),
                            ("sparse", pyOfSparse (sparse_to_dict lw))])) ∧
    (sparse_to_dict lw).indices.length = (sparse_to_dict lw).values.length ∧
    (∀ k ∈ (sparse_to_dict lw).indices, 0 ≤ k) ∧
    (lw = [] → (sparse_to_dict lw).indices = [] ∧ (sparse_to_dict lw).values = []) := by
  refine ⟨?_, ?_, ?_, ?_⟩
  · simp [embed_full, embedFullCompute, pyGet, htr, hm, hd, hl, pyIndex0]
  · unfold sparse_to_dict
    cases lw <;> simp
  · unfold sparse_to_dict
    cases lw with
    | nil => simp
    | cons p rest =>
      simp only [List.isEmpty_cons, if_false, Bool.false_eq_true]
      intro k hk
      obtain ⟨q, _, hq⟩ := List.mem_map.mp hk
      omega
  · intro h
    subst h
    exact ⟨rfl, rfl⟩

/-- Witness for C6: the full endpoint on a concrete request and model returns
the dense vector and the converted sparse mapping. -/
theorem full_sparse_wellformed_witness :
    (embed_full (.dict [("text", .str "a")]) 8192 modelA).1
      = .ok (jsonOk (.dict [("dense", pyOfVec [1]),
                            ("sparse", pyOfSparse (sparse_to_dict [(3, 1/2)]))])) :=
  (full_sparse_wellformed 8192 modelA [("text", .str "a")] rfl
    { dense_vecs := [[1]], lexical_weights := [[(3, 1/2)]] } rfl
    [1] [] rfl [(3, 1/2)] [] rfl).1

/-- A model that always raises, standing for an inference failure. -/
def modelFail : Model :=
  fun _ => .error (.modelError "boom")

/-- C7: when the encode call raises, every handler propagates the error
uncaught: the handler's outcome is exactly that error (so no partial or
degraded response is produced), with the one encode call on record. -/
theorem inference_error_propagates (ml : ℕ) (m : Model) (e : PyErr)
    (kvs : List (String × PyVal)) :
    (truthy (dictGet kvs "text" (.str "")) = true →
      (m { inputs := .list [dictGet kvs "text" (.str "")], max_length := ml,
           return_dense := true, return_sparse := false,
           return_colbert_vecs := false } = .error e →
        embed (.dict kvs) ml m
          = (.error e,
             [{ inputs := .list [dictGet kvs "text" (.str "")], max_length := ml,
                return_dense := true, return_sparse := false,
                return_colbert_vecs := false }])) ∧
      (m { inputs := .list [dictGet kvs "text" (.str "")], max_length := ml,
           return_dense := true, return_sparse := true,
           return_colbert_vecs := false } = .error e →
        embed_full (.dict kvs) ml m
          = (.error e,
             [{ inputs := .list [dictGet kvs "text" (.str "")], max_length := ml,
                return_dense := true, return_sparse := true,
                return_colbert_vecs := false }]))) ∧
    (truthy (dictGet kvs "texts" (.list [])) = true →
      (m { inputs := dictGet kvs "texts" (.list []), max_length := ml,
           return_dense := true, return_sparse := false,
           return_colbert_vecs := false } = .error e →
        embed_batch (.dict kvs) ml m
          = (.error e,
             [{ inputs := dictGet kvs "texts" (.list []), max_length := ml,
                return_dense := true, return_sparse := false,
                return_colbert_vecs := false }])) ∧
      (m { inputs := dictGet kvs "texts" (.list []), max_length := ml,
           return_dense := true, return_sparse := true,
           return_colbert_vecs := false } = .error e →
        embed_batch_full (.dict kvs) ml m
          = (.error e,
             [{ inputs := dictGet kvs "texts" (.list []), max_length := ml,
                return_dense := true, return_sparse := true,
                return_colbert_vecs := false }]))) := by
  constructor
  · intro ht
    constructor
    · intro hm
      simp [embed, embedCompute, pyGet, ht, hm]
    · intro hm
      simp [embed_full, embedFullCompute, pyGet, ht, hm]
  · intro ht
    constructor
    · intro hm
      simp [embed_batch, embedBatchCompute, pyGet, ht, hm]
    · intro hm
      simp [embed_batch_full, embedBatchFullCompute, pyGet, ht, hm]

/-- Witness for C7: a concrete failing model makes the single dense endpoint
fail with exactly the raised error. -/
theorem inference_error_propagates_witness :
    embed (.dict [("text", .str "a")]) 8192 modelFail
      = (.error (.modelError "boom"),
         [{ inputs := .list [.str "a"], max_length := 8192,
            return_dense := true, return_sparse := false,
            return_colbert_vecs := false }]) :=
  ((inference_error_propagates 8192 modelFail (.modelError "boom")
      [("text", .str "a")]).1 rfl).1 rfl

/-- C8: the single dense handler introduces no nondeterminism: its whole
outcome is a function of the request and of the model's answer at the one
encode call the request determines, so two models agreeing there give
identical responses, and repeated calls with one fixed model are identical. -/
theorem embed_deterministic (s : String) (hs : s ≠ "") (ml : ℕ) (m1 m2 : Model)
    (hagree : m1 { inputs := .list [.str s], max_length := ml, return_dense := true,
                   return_sparse := false, return_colbert_vecs := false }
            = m2 { inputs := .list [.str s], max_length := ml, return_dense := true,
                   return_sparse := false, return_colbert_vecs := false }) :
    embed (.dict [("text", .str s)]) ml m1 = embed (.dict [("text", .str s)]) ml m2 ∧
    embed (.dict [("text", .str s)]) ml m1 = embed (.dict [("text", .str s)]) ml m1 := by
  refine ⟨?_, rfl⟩
  have ht : truthy (.str s) = true := by simp [truthy, hs]
  simp [embed, embedCompute, pyGet, dictGet, ht, hagree]

/-- Witness for C8 at a concrete non-empty text and model. -/
theorem embed_deterministic_witness :
    embed (.dict [("text", .str "a")]) 8192 modelA
      = embed (.dict [("text", .str "a")]) 8192 modelA :=
  (embed_deterministic "a" (by decide) 8192 modelA modelA rfl).1

/-- C9: a null parsed body makes every embed handler raise AttributeError
(an unhandled server fault) instead of returning the 400 validation
response, and a 400 response can only arise from a body that parsed to a
JSON object. -/
theorem null_body_attribute_error (ml : ℕ) (m : Model) :
    (embed .pynone ml m = (.error (.attributeError "get"), []) ∧
     embed_batch .pynone ml m = (.error (.attributeError "get"), []) ∧
     embed_full .pynone ml m = (.error (.attributeError "get"), []) ∧
     embed_batch_full .pynone ml m = (.error (.attributeError "get"), [])) ∧
    (∀ data : PyVal, ∀ r : HttpResponse,
      ((embed data ml m).1 = .ok r ∨ (embed_batch data ml m).1 = .ok r ∨
       (embed_full data ml m).1 = .ok r ∨ (embed_batch_full data ml m).1 = .ok r) →
      r.status = 400 → ∃ kvs : List (String × PyVal), data = .dict kvs) := by
  refine ⟨⟨rfl, rfl, rfl, rfl⟩, ?_⟩
  intro data r h _
  rcases h with h | h | h | h <;> cases data <;>
    first
      | exact ⟨_, rfl⟩
      | simp [embed, embed_batch, embed_full, embed_batch_full, pyGet] at h

/-- Witness for C9: the empty JSON object (which yields a 400 on the single
endpoint) is indeed a JSON object. -/
theorem null_body_attribute_error_witness :
    ∃ kvs : List (String × PyVal), PyVal.dict [] = PyVal.dict kvs :=
  (null_body_attribute_error 8192 modelA).2 (PyVal.dict [])
    { status := 400, body := .dict [("error", .str "text is required")] }
    (Or.inl rfl) rfl

/-- C10: validation tests only Python truthiness of the field, never its
type: any falsy value is rejected with the 400 response, and any truthy
value of any type passes validation and is forwarded unchanged inside the
encode call. -/
theorem truthiness_only_validation (ml : ℕ) (m : Model)
    (kvs kvs2 : List (String × PyVal)) (v w : PyVal)
    (hv : dictGet kvs "text" (.str "") = v)
    (hw : dictGet kvs2 "texts" (.list []) = w) :
    (truthy v = false →
      embed (.dict kvs) ml m
        = (.ok { status := 400, body := .dict [("error", .str "text is required")] }, [])) ∧
    (truthy v = true →
      (embed (.dict kvs) ml m).2
        = [{ inputs := .list [v], max_length := ml, return_dense := true,
             return_sparse := false, return_colbert_vecs := false }]) ∧
    (truthy w = false →
      embed_batch (.dict kvs2) ml m
        = (.ok { status := 400, body := .dict [("error", .str "texts is required")] }, [])) ∧
    (truthy w = true →
      (embed_batch (.dict kvs2) ml m).2
        = [{ inputs := w, max_length := ml, return_dense := true,
             return_sparse := false, return_colbert_vecs := false }]) := by
  refine ⟨?_, ?_, ?_, ?_⟩ <;> intro h <;>
    simp [embed, embed_batch, pyGet, hv, hw, h]

/-- Witness for C10: a number bound to `text` and a non-empty string bound to
`texts` both pass validation and are forwarded unchanged. -/
theorem truthiness_only_validation_witness :
    (embed (.dict [("text", .int 5)]) 8192 modelA).2
      = [{ inputs := .list [.int 5], max_length := 8192, return_dense := true,
           return_sparse := false, return_colbert_vecs := false }] ∧
    (embed_batch (.dict [("texts", .str "abc")]) 8192 modelA).2
      = [{ inputs := .str "abc", max_length := 8192, return_dense := true,
           return_sparse := false, return_colbert_vecs := false }] :=
  ⟨(truthiness_only_validation 8192 modelA [("text", .int 5)] [("texts", .str "abc")]
      (.int 5) (.str "abc") rfl rfl).2.1 rfl,
   (truthiness_only_validation 8192 modelA [("text", .int 5)] [("texts", .str "abc")]
      (.int 5) (.str "abc") rfl rfl).2.2.2 rfl⟩

end BgeM3
